import Mathlib

/-!
Shallow embedding of the package-resolution orchestrator of
`src/workspace/package/external/manager.rs` (`ExternalPackageManager`),
together with models of the collaborator capabilities it consumes.

Only `manager.rs` is part of the included source; the collaborator types
(`LocalProvider`, `RepoProvider`, `RepoRetrievalDest`, `ExternalPackageError`)
live in files that are not included, so they are modelled from the spec
(sections 4.2, 4.3, 7) where noted.

Effects (provider consultations, destination invocation, repository fetches,
cache writes) are made observable by threading an explicit state and an
effect trace through every operation.
-/

namespace TypstLsp

/-- A filesystem path, as a list of segments (mirrors `PathBuf` components). -/
def Path : Type := List String

instance : DecidableEq Path := by unfold Path; infer_instance

instance : Append Path := by unfold Path; infer_instance

/-- Mirrors typst's `PackageVersion`: an exact (major, minor, patch) version. -/
structure PackageVersion where
  major : Nat
  minor : Nat
  patch : Nat
deriving DecidableEq

/-- Mirrors typst's `PackageSpec`: the package identifier, with a namespace
(field `ns`, since `namespace` is a Lean keyword), name and exact version. -/
structure PackageSpec where
  ns : String
  name : String
  version : PackageVersion
deriving DecidableEq

/-- Opaque raw package content, as fetched from a repository. -/
def Bundle : Type := String

instance : DecidableEq Bundle := by unfold Bundle; infer_instance

/-- Modelled from the spec: a `Package` (src/workspace/package/mod.rs is not
included) is the resolved, in-hand content of a package, a root location
plus its accessible contents (section 3). -/
structure Package where
  root : Path
  bundle : Bundle
deriving DecidableEq

/-- A document locator (a `Url`), modelled as a path. -/
def Url : Type := List String

/-- Modelled from the spec: a `FullFileId` (src/workspace/package/mod.rs is
not included) combines which package root with which file within it
(section 3, glossary). -/
structure FullFileId where
  root : Path
  sub : List String
deriving DecidableEq

/-- Rendering of `PackageVersion` used in the `format!`-style message. -/
def PackageVersion.toStr (v : PackageVersion) : String :=
  toString v.major ++ "." ++ toString v.minor ++ "." ++ toString v.patch

/-- Rendering of a `PackageSpec` as in `Display for PackageSpec`. -/
def specToString (s : PackageSpec) : String :=
  "@" ++ s.ns ++ "/" ++ s.name ++ ":" ++ s.version.toStr

/-- Observable effects of an orchestrator operation: consulting the lookup
backend at index `idx` (for a package or a full-id lookup), invoking the
retrieval destination, a repository fetch, and a cache write. -/
inductive Effect where
  | lookup (idx : Nat)
  | lookupId (idx : Nat)
  | materialize
  | fetch
  | cacheWrite
deriving DecidableEq

/-- Modelled from the spec: the `RepoProvider` capability
(src/workspace/package/external/mod.rs is not included) fetches raw content
for an identifier over the network; the fetch may fail (section 6). -/
structure RepoProvider where
  fetch : PackageSpec → Except String Bundle

/-- Modelled from the spec: the error class reported by a retrieval
destination — repository capability absent, fetch failed, or the fetched
content could not be persisted (sections 4.3 and 7). -/
inductive DestError where
  | NoRepoProvider
  | FetchFailed (msg : String)
  | PersistFailed (msg : String)
deriving DecidableEq

/-- Partly modelled from the spec: `ExternalPackageError`
(src/workspace/package/manager.rs is not included). The included source
shows an `Other` variant carrying an `anyhow` message, and retrieval-path
errors entering through a `From` conversion (the `?` in
`download_to_cache`), here `RetrievalFailed` (section 7). -/
inductive ExternalPackageError where
  | RetrievalFailed (e : DestError)
  | Other (msg : String)
deriving DecidableEq

/-- Mirrors `ExternalPackageResult<T> = Result<T, ExternalPackageError>`. -/
def ExternalPackageResult (α : Type) : Type := Except ExternalPackageError α

instance exceptDecEq {ε α : Type} [DecidableEq ε] [DecidableEq α] :
    DecidableEq (Except ε α) := fun x y =>
  match x, y with
  | Except.ok a, Except.ok b =>
    if h : a = b then isTrue (by rw [h])
    else isFalse (fun hc => h (by cases hc; rfl))
  | Except.ok _, Except.error _ => isFalse (by intro hc; cases hc)
  | Except.error _, Except.ok _ => isFalse (by intro hc; cases hc)
  | Except.error e, Except.error f =>
    if h : e = f then isTrue (by rw [h])
    else isFalse (fun hc => h (by cases hc; rfl))

instance : DecidableEq (ExternalPackageResult Package) := by
  unfold ExternalPackageResult; infer_instance

/-- The `ExternalPackageProvider` trait (lookup backend, section 4.2): a
package lookup and a locator resolution, both reads of the ambient state σ. -/
structure ExternalPackageProvider (σ : Type) where
  package : PackageSpec → σ → Option Package
  full_id : Url → σ → Option FullFileId

/-- The `RepoRetrievalDest` trait (retrieval destination, section 4.3):
`store_from` fetches via the (optional) repository capability and writes
into the state, returning the materialized package, the new state and the
effects (fetches, cache writes) it performed. -/
structure RepoRetrievalDest (σ : Type) where
  store_from : Option RepoProvider → PackageSpec → σ → Except DestError Package × σ × List Effect

/-- Mirrors `ExternalPackageManager<Dest, Repo>`: an ordered list of lookup
backends, an optional retrieval destination (`cache`), and the repository
slot (`Option` mirrors the default `DefaultRepoProvider`). -/
structure ExternalPackageManager (σ : Type) where
  providers : List (ExternalPackageProvider σ)
  cache : Option (RepoRetrievalDest σ)
  repo : Option RepoProvider

/-- Mirrors `self.providers().find_map(|provider| provider.package(spec))`,
recording one `Effect.lookup` per backend consulted (short-circuiting). -/
def runLookups {σ : Type} (ps : List (ExternalPackageProvider σ)) (i : Nat)
    (spec : PackageSpec) (s : σ) : Option Package × List Effect :=
  match ps with
  | [] => (none, [])
  | p :: rest =>
    match p.package spec s with
    | some pkg => (some pkg, [Effect.lookup i])
    | none =>
      let r := runLookups rest (i + 1) spec s
      (r.1, Effect.lookup i :: r.2)

/-- Mirrors `self.providers().find_map(|provider| provider.full_id(uri))`,
recording one `Effect.lookupId` per backend consulted (short-circuiting). -/
def runFullIds {σ : Type} (ps : List (ExternalPackageProvider σ)) (i : Nat)
    (uri : Url) (s : σ) : Option FullFileId × List Effect :=
  match ps with
  | [] => (none, [])
  | p :: rest =>
    match p.full_id uri s with
    | some fid => (some fid, [Effect.lookupId i])
    | none =>
      let r := runFullIds rest (i + 1) uri s
      (r.1, Effect.lookupId i :: r.2)

/-- Mirrors `ExternalPackageManager::download_to_cache`: if a cache
(retrieval destination) is configured, delegate to its `store_from`
(converting its error through `RetrievalFailed`, the `?` conversion) and
record the `materialize` invocation; otherwise fail with the
`Other("nowhere to download package {spec}")` configuration error. -/
def ExternalPackageManager.download_to_cache {σ : Type}
    (m : ExternalPackageManager σ) (spec : PackageSpec) (s : σ) :
    ExternalPackageResult Package × σ × List Effect :=
  match m.cache with
  | some cache =>
    let r := cache.store_from m.repo spec s
    (r.1.mapError ExternalPackageError.RetrievalFailed, r.2.1,
      Effect.materialize :: r.2.2)
  | none =>
    (Except.error (ExternalPackageError.Other
        ("nowhere to download package " ++ specToString spec)), s, [])

/-- Mirrors `ExternalPackageManager::package`: try the lookup backends in
order; on a hit return that package (state unchanged), otherwise fall back
to `download_to_cache`. -/
def ExternalPackageManager.package {σ : Type}
    (m : ExternalPackageManager σ) (spec : PackageSpec) (s : σ) :
    ExternalPackageResult Package × σ × List Effect :=
  let found := runLookups m.providers 0 spec s
  match found.1 with
  | some pkg => (Except.ok pkg, s, found.2)
  | none =>
    let r := m.download_to_cache spec s
    (r.1, r.2.1, found.2 ++ r.2.2)

/-- Mirrors `ExternalPackageManager::full_id`: first backend to recognize
the locator wins; the state is returned unchanged alongside the trace of
backend consultations. -/
def ExternalPackageManager.full_id {σ : Type}
    (m : ExternalPackageManager σ) (uri : Url) (s : σ) :
    Option FullFileId × σ × List Effect :=
  let r := runFullIds m.providers 0 uri s
  (r.1, s, r.2)

/-- Contents of one storage root: an association list from package
identifiers to their stored raw content. -/
def Store : Type := List (PackageSpec × Bundle)

/-- First entry for `spec` in a store, if any. -/
def Store.find : Store → PackageSpec → Option Bundle
  | [], _ => none
  | (sp, b) :: rest, q => if sp = q then some b else Store.find rest q

/-- Adds an entry for `spec` to the front of the store (later lookups for
`spec` see this entry). -/
def Store.insert (st : Store) (spec : PackageSpec) (b : Bundle) : Store :=
  (spec, b) :: st

/-- The local filesystem state: an association list from storage roots to
their stores (first entry for a root wins). -/
def FileSys : Type := List (Path × Store)

/-- The store at root `r` in `fs`; an unlisted root is empty. -/
def storeAt : FileSys → Path → Store
  | [], _ => []
  | (r, st) :: rest, p => if r = p then st else storeAt rest p

/-- Replaces the store at root `r` (by shadowing). -/
def updateStore (fs : FileSys) (r : Path) (st : Store) : FileSys :=
  (r, st) :: fs

theorem storeAt_updateStore (fs : FileSys) (r p : Path) (st : Store) :
    storeAt (updateStore fs r st) p = if r = p then st else storeAt fs p := rfl

/-- Modelled from the spec: `LocalProvider`
(src/workspace/package/external/local.rs is not included) — a simple
path-based store managing a single storage root (sections 2, 4.2). -/
structure LocalProvider where
  root : Path
deriving DecidableEq

/-- Mirrors `LocalProvider::new(path)` composed with the `.join("typst/packages/")`
done in `ExternalPackageManager::new`. -/
def LocalProvider.new (path : Path) : LocalProvider := ⟨path⟩

/-- The on-disk subdirectory of a package below a provider root. -/
def pkgSubdir (spec : PackageSpec) : Path :=
  [spec.ns, spec.name, spec.version.toStr]

/-- Modelled from the spec: `LocalProvider`'s package lookup — a pure read
of the store at its root, yielding the package rooted at the package's
subdirectory (section 4.2). -/
def LocalProvider.packageAt (lp : LocalProvider) (spec : PackageSpec)
    (fs : FileSys) : Option Package :=
  (Store.find (storeAt fs lp.root) spec).map
    (fun b => ⟨lp.root ++ pkgSubdir spec, b⟩)

/-- Modelled from the spec: `LocalProvider`'s locator resolution — it
recognizes exactly the locators under its managed root and resolves them
to a full file identifier (sections 3, 4.2). -/
def LocalProvider.fullIdAt (lp : LocalProvider) (uri : Url) (_fs : FileSys) :
    Option FullFileId :=
  if lp.root <+: uri then some ⟨lp.root, (uri : List String).drop lp.root.length⟩
  else none

/-- The `ExternalPackageProvider` view of a `LocalProvider`
(mirrors `provider as Box<dyn ExternalPackageProvider>`). -/
def LocalProvider.toProvider (lp : LocalProvider) :
    ExternalPackageProvider FileSys :=
  ⟨lp.packageAt, lp.fullIdAt⟩

/-- Modelled from the spec: `LocalProvider`'s `store_from` (section 4.3) —
with no repository capability it declines; otherwise it fetches via the
repository and on success persists the content under its root, so that the
same component, acting as a lookup backend, discovers it afterwards. -/
def LocalProvider.store_from (lp : LocalProvider) (repo : Option RepoProvider)
    (spec : PackageSpec) (fs : FileSys) :
    Except DestError Package × FileSys × List Effect :=
  match repo with
  | none => (Except.error DestError.NoRepoProvider, fs, [])
  | some r =>
    match r.fetch spec with
    | Except.error msg =>
      (Except.error (DestError.FetchFailed msg), fs, [Effect.fetch])
    | Except.ok b =>
      (Except.ok ⟨lp.root ++ pkgSubdir spec, b⟩,
        updateStore fs lp.root (Store.insert (storeAt fs lp.root) spec b),
        [Effect.fetch, Effect.cacheWrite])

/-- The `RepoRetrievalDest` view of a `LocalProvider`. -/
def LocalProvider.toDest (lp : LocalProvider) : RepoRetrievalDest FileSys :=
  ⟨lp.store_from⟩

/-- The `"typst/packages/"` path joined onto the user and cache dirs in
`ExternalPackageManager::new`. -/
def typstPackages : Path := ["typst", "packages"]

/-- Mirrors `ExternalPackageManager::new`. The environment queries
`dirs::config_dir()` and `dirs::cache_dir()` and the best-effort
`get_default_repo_provider()` are external; their results enter as the
`Option` arguments. A missing dir is logged (a warning, not modelled) and
omitted; the providers list is user first, then cache; the cache dir's
provider doubles as the retrieval destination. -/
def ExternalPackageManager.new (configDir cacheDir : Option Path)
    (repo : Option RepoProvider) : ExternalPackageManager FileSys :=
  let user := (configDir.map (fun p => LocalProvider.new (p ++ typstPackages))).map
    LocalProvider.toProvider
  let cache := cacheDir.map (fun p => LocalProvider.new (p ++ typstPackages))
  { providers := [user, cache.map LocalProvider.toProvider].filterMap id
    cache := cache.map LocalProvider.toDest
    repo := repo }

/-- Effects that only read: backend consultations. -/
def Effect.isRead : Effect → Bool
  | .lookup _ => true
  | .lookupId _ => true
  | .materialize => false
  | .fetch => false
  | .cacheWrite => false

theorem runLookups_hit {σ : Type} (spec : PackageSpec) (s : σ) :
    ∀ (ps : List (ExternalPackageProvider σ)) (i k : Nat)
      (hk : k < ps.length) (pkg : Package),
      (∀ j (hj : j < ps.length), j < k → (ps.get ⟨j, hj⟩).package spec s = none) →
      (ps.get ⟨k, hk⟩).package spec s = some pkg →
      runLookups ps i spec s = (some pkg, (List.range' i (k + 1)).map Effect.lookup)
  | [], _, k, hk, _, _, _ => absurd hk (by simp)
  | p :: rest, i, 0, _, pkg, _, hhit => by
      simp only [List.get] at hhit
      simp [runLookups, hhit, List.range']
  | p :: rest, i, k + 1, hk, pkg, hbefore, hhit => by
      have h0 : p.package spec s = none := hbefore 0 (by simp) (Nat.succ_pos k)
      have ih := runLookups_hit spec s rest (i + 1) k (by simpa using hk) pkg
        (fun j hj hlt => hbefore (j + 1) (by simpa using hj) (Nat.succ_lt_succ hlt))
        (by simpa using hhit)
      simp [runLookups, h0, ih, List.range']

theorem runLookups_miss {σ : Type} (spec : PackageSpec) (s : σ) :
    ∀ (ps : List (ExternalPackageProvider σ)) (i : Nat),
      (∀ p ∈ ps, p.package spec s = none) →
      runLookups ps i spec s = (none, (List.range' i ps.length).map Effect.lookup)
  | [], i, _ => by simp [runLookups, List.range']
  | p :: rest, i, hmiss => by
      have h0 : p.package spec s = none := hmiss p (by simp)
      have ih := runLookups_miss spec s rest (i + 1)
        (fun q hq => hmiss q (List.mem_cons_of_mem p hq))
      simp [runLookups, h0, ih, List.range']

theorem runFullIds_hit {σ : Type} (uri : Url) (s : σ) :
    ∀ (ps : List (ExternalPackageProvider σ)) (i k : Nat)
      (hk : k < ps.length) (fid : FullFileId),
      (∀ j (hj : j < ps.length), j < k → (ps.get ⟨j, hj⟩).full_id uri s = none) →
      (ps.get ⟨k, hk⟩).full_id uri s = some fid →
      runFullIds ps i uri s = (some fid, (List.range' i (k + 1)).map Effect.lookupId)
  | [], _, k, hk, _, _, _ => absurd hk (by simp)
  | p :: rest, i, 0, _, fid, _, hhit => by
      simp only [List.get] at hhit
      simp [runFullIds, hhit, List.range']
  | p :: rest, i, k + 1, hk, fid, hbefore, hhit => by
      have h0 : p.full_id uri s = none := hbefore 0 (by simp) (Nat.succ_pos k)
      have ih := runFullIds_hit uri s rest (i + 1) k (by simpa using hk) fid
        (fun j hj hlt => hbefore (j + 1) (by simpa using hj) (Nat.succ_lt_succ hlt))
        (by simpa using hhit)
      simp [runFullIds, h0, ih, List.range']

theorem runFullIds_miss {σ : Type} (uri : Url) (s : σ) :
    ∀ (ps : List (ExternalPackageProvider σ)) (i : Nat),
      (∀ p ∈ ps, p.full_id uri s = none) →
      runFullIds ps i uri s = (none, (List.range' i ps.length).map Effect.lookupId)
  | [], i, _ => by simp [runFullIds, List.range']
  | p :: rest, i, hmiss => by
      have h0 : p.full_id uri s = none := hmiss p (by simp)
      have ih := runFullIds_miss uri s rest (i + 1)
        (fun q hq => hmiss q (List.mem_cons_of_mem p hq))
      simp [runFullIds, h0, ih, List.range']

theorem runFullIds_all_read {σ : Type} (uri : Url) (s : σ) :
    ∀ (ps : List (ExternalPackageProvider σ)) (i : Nat),
      ((runFullIds ps i uri s).2).all Effect.isRead = true
  | [], _ => rfl
  | p :: rest, i => by
      cases hp : p.full_id uri s with
      | some fid => simp [runFullIds, hp, Effect.isRead]
      | none =>
          have ih := runFullIds_all_read uri s rest (i + 1)
          simp [runFullIds, hp, Effect.isRead, ih]

/-! Concrete fixtures used by the witness theorems. -/

/-- A concrete package identifier. -/
def specW : PackageSpec := ⟨"preview", "example", ⟨1, 0, 0⟩⟩

/-- A concrete package value. -/
def pkgW : Package := ⟨["r"], "content"⟩

/-- A concrete full file identifier. -/
def fidW : FullFileId := ⟨["r"], ["lib.typ"]⟩

/-- A backend that holds nothing and recognizes nothing. -/
def providerEmpty : ExternalPackageProvider Unit :=
  ⟨fun _ _ => none, fun _ _ => none⟩

/-- A backend that holds `pkgW` for every identifier and resolves every
locator to `fidW`. -/
def providerHit : ExternalPackageProvider Unit :=
  ⟨fun _ _ => some pkgW, fun _ _ => some fidW⟩

/-- A repository capability whose fetch always succeeds. -/
def repoOk : RepoProvider := ⟨fun _ => Except.ok "content"⟩

/-- A destination that always reports a fetch failure, leaving the state
alone and performing one fetch. -/
def destFail : RepoRetrievalDest Unit :=
  ⟨fun _ _ s => (Except.error (DestError.FetchFailed "timeout"), s, [Effect.fetch])⟩

/-- C1: for a package identifier held by the k-th lookup backend and absent
from every backend before k, `package` returns the k-th backend's package
immediately: the state is unchanged and the effect trace is exactly the
consultations of backends 0..k — no later backend is consulted and no
materialize, fetch or cache-write effect occurs. -/
theorem package_first_hit {σ : Type} (m : ExternalPackageManager σ)
    (spec : PackageSpec) (s : σ) (k : Nat) (hk : k < m.providers.length)
    (pkg : Package)
    (hbefore : ∀ j (hj : j < m.providers.length), j < k →
      (m.providers.get ⟨j, hj⟩).package spec s = none)
    (hhit : (m.providers.get ⟨k, hk⟩).package spec s = some pkg) :
    m.package spec s =
      (Except.ok pkg, s, (List.range' 0 (k + 1)).map Effect.lookup) := by
  simp [ExternalPackageManager.package,
    runLookups_hit spec s m.providers 0 k hk pkg hbefore hhit]

/-- Witness for C1 at a concrete manager whose second backend holds the
package: the result is the second backend's package, the destination and
repository are never invoked. -/
theorem package_first_hit_witness :
    (⟨[providerEmpty, providerHit], none, some repoOk⟩ :
        ExternalPackageManager Unit).package specW () =
      (Except.ok pkgW, (), (List.range' 0 2).map Effect.lookup) :=
  package_first_hit ⟨[providerEmpty, providerHit], none, some repoOk⟩ specW () 1
    (by simp) pkgW
    (fun j _ hlt => by
      cases j with
      | zero => rfl
      | succ n => omega)
    rfl

/-- C3: for an identifier absent from every lookup backend, with no
retrieval destination configured, `package` fails with the
not-found-no-destination configuration error, the state unchanged — and it
does so whatever the repository slot holds, since `m.repo` is arbitrary. -/
theorem package_no_dest {σ : Type} (m : ExternalPackageManager σ)
    (spec : PackageSpec) (s : σ)
    (hmiss : ∀ p ∈ m.providers, p.package spec s = none)
    (hnodest : m.cache = none) :
    m.package spec s =
      (Except.error (ExternalPackageError.Other
          ("nowhere to download package " ++ specToString spec)), s,
        (List.range' 0 m.providers.length).map Effect.lookup) := by
  simp [ExternalPackageManager.package,
    runLookups_miss spec s m.providers 0 hmiss,
    ExternalPackageManager.download_to_cache, hnodest]

/-- Witness for C3 at a concrete manager with one empty backend, no
destination and a present repository capability. -/
theorem package_no_dest_witness :
    (⟨[providerEmpty], none, some repoOk⟩ :
        ExternalPackageManager Unit).package specW () =
      (Except.error (ExternalPackageError.Other
          ("nowhere to download package " ++ specToString specW)), (),
        (List.range' 0 1).map Effect.lookup) :=
  package_no_dest ⟨[providerEmpty], none, some repoOk⟩ specW ()
    (fun p hp => by
      simp only [List.mem_singleton] at hp
      rw [hp]
      rfl)
    rfl

/-- C4: `full_id` returns the resolution of the first backend in
construction order that recognizes the locator, even if a later backend
would also recognize it; and it returns `none`, not an error, when no
backend recognizes the locator. -/
theorem full_id_first_recognizer {σ : Type} (m : ExternalPackageManager σ)
    (uri : Url) (s : σ) :
    (∀ (k : Nat) (hk : k < m.providers.length) (fid : FullFileId),
      (∀ j (hj : j < m.providers.length), j < k →
        (m.providers.get ⟨j, hj⟩).full_id uri s = none) →
      (m.providers.get ⟨k, hk⟩).full_id uri s = some fid →
      (m.full_id uri s).1 = some fid) ∧
    ((∀ p ∈ m.providers, p.full_id uri s = none) →
      (m.full_id uri s).1 = none) := by
  constructor
  · intro k hk fid hbefore hhit
    simp [ExternalPackageManager.full_id,
      runFullIds_hit uri s m.providers 0 k hk fid hbefore hhit]
  · intro hmiss
    simp [ExternalPackageManager.full_id,
      runFullIds_miss uri s m.providers 0 hmiss]

/-- Witness for C4: with a first backend that recognizes every locator and
a second that also would, the first backend's resolution is returned. -/
theorem full_id_first_recognizer_witness :
    ((⟨[providerHit, providerHit], none, none⟩ :
        ExternalPackageManager Unit).full_id ["u"] ()).1 = some fidW :=
  (full_id_first_recognizer ⟨[providerHit, providerHit], none, none⟩ ["u"] ()).1
    0 (by simp) fidW (fun j _ hlt => absurd hlt (by omega)) rfl

/-- C7: when every lookup backend misses and the configured destination's
`store_from` fails, `package` returns that error wrapped once through the
`RetrievalFailed` conversion, adopts the destination's resulting state, and
the trace shows exactly one materialization attempt — no internal retry. -/
theorem package_propagates_dest_error {σ : Type}
    (m : ExternalPackageManager σ) (spec : PackageSpec) (s : σ)
    (d : RepoRetrievalDest σ) (e : DestError) (s' : σ) (es : List Effect)
    (hmiss : ∀ p ∈ m.providers, p.package spec s = none)
    (hc : m.cache = some d)
    (hd : d.store_from m.repo spec s = (Except.error e, s', es))
    (hno : Effect.materialize ∉ es) :
    m.package spec s =
      (Except.error (ExternalPackageError.RetrievalFailed e), s',
        (List.range' 0 m.providers.length).map Effect.lookup ++
          Effect.materialize :: es) ∧
    List.count Effect.materialize
      ((List.range' 0 m.providers.length).map Effect.lookup ++
        Effect.materialize :: es) = 1 := by
  constructor
  · simp [ExternalPackageManager.package,
      runLookups_miss spec s m.providers 0 hmiss,
      ExternalPackageManager.download_to_cache, hc, hd, Except.mapError]
  · have h1 : List.count Effect.materialize
        ((List.range' 0 m.providers.length).map Effect.lookup) = 0 := by
      rw [List.count_eq_zero]
      simp
    have h2 : List.count Effect.materialize es = 0 := List.count_eq_zero.mpr hno
    simp [List.count_append, List.count_cons, h1, h2]

/-- Witness for C7 at a concrete manager over `Unit` with one empty backend
and an always-failing destination. -/
theorem package_propagates_dest_error_witness :
    (⟨[providerEmpty], some destFail, none⟩ :
        ExternalPackageManager Unit).package specW () =
      (Except.error (ExternalPackageError.RetrievalFailed
          (DestError.FetchFailed "timeout")), (),
        (List.range' 0 1).map Effect.lookup ++
          Effect.materialize :: [Effect.fetch]) ∧
    List.count Effect.materialize
      ((List.range' 0 1).map Effect.lookup ++
        Effect.materialize :: [Effect.fetch]) = 1 :=
  package_propagates_dest_error ⟨[providerEmpty], some destFail, none⟩ specW ()
    destFail (DestError.FetchFailed "timeout") () [Effect.fetch]
    (fun p hp => by
      simp only [List.mem_singleton] at hp
      rw [hp]
      rfl)
    rfl rfl (by decide)

/-- C8: `full_id` is effect-free apart from reading the lookup backends:
for every locator the state component of the run is unchanged and every
recorded effect is a read — in particular no materialize, fetch or
cache-write effect occurs. -/
theorem full_id_no_side_effects {σ : Type} (m : ExternalPackageManager σ)
    (uri : Url) (s : σ) :
    (m.full_id uri s).2.1 = s ∧
    ((m.full_id uri s).2.2).all Effect.isRead = true := by
  refine ⟨rfl, ?_⟩
  simpa [ExternalPackageManager.full_id] using
    runFullIds_all_read uri s m.providers 0

theorem Store.find_insert_self (st : Store) (spec : PackageSpec) (b : Bundle) :
    Store.find (Store.insert st spec b) spec = some b := by
  simp [Store.insert, Store.find]

/-- C5: construction never fails, whatever the environment yields: with any
combination of determined/undetermined user and cache roots and any
repository-construction outcome, `new` produces a manager whose backend
list has exactly one entry per determined root (zero, one or two), whose
destination slot is filled exactly when the cache root was determined, and
whose repository slot is the given best-effort outcome. -/
theorem new_always_constructible (configDir cacheDir : Option Path)
    (repo : Option RepoProvider) :
    (ExternalPackageManager.new configDir cacheDir repo).providers.length =
      (if configDir.isSome then 1 else 0) +
        (if cacheDir.isSome then 1 else 0) ∧
    ((ExternalPackageManager.new configDir cacheDir repo).cache.isSome ↔
      cacheDir.isSome) ∧
    (ExternalPackageManager.new configDir cacheDir repo).repo = repo := by
  cases configDir <;> cases cacheDir <;>
    simp [ExternalPackageManager.new]

/-- C6: with a retrieval destination configured but no repository
capability, `package` for an identifier missing from every backend still
attempts materialization (the `materialize` effect is recorded) and fails
with the fetch-failure class the destination reports for an absent
repository (`NoRepoProvider`), the state unchanged. -/
theorem package_dest_no_repo (m : ExternalPackageManager FileSys)
    (lp : LocalProvider) (spec : PackageSpec) (fs : FileSys)
    (hmiss : ∀ p ∈ m.providers, p.package spec fs = none)
    (hc : m.cache = some lp.toDest)
    (hr : m.repo = none) :
    m.package spec fs =
      (Except.error (ExternalPackageError.RetrievalFailed
          DestError.NoRepoProvider), fs,
        (List.range' 0 m.providers.length).map Effect.lookup ++
          [Effect.materialize]) := by
  simp [ExternalPackageManager.package,
    runLookups_miss spec fs m.providers 0 hmiss,
    ExternalPackageManager.download_to_cache, hc, hr,
    LocalProvider.toDest, LocalProvider.store_from, Except.mapError]

/-- Witness for C6 at a manager with no backends, a destination at root
`["c"]` and no repository capability. -/
theorem package_dest_no_repo_witness :
    (⟨[], some (LocalProvider.toDest ⟨["c"]⟩), none⟩ :
        ExternalPackageManager FileSys).package specW [] =
      (Except.error (ExternalPackageError.RetrievalFailed
          DestError.NoRepoProvider), [],
        (List.range' 0 0).map Effect.lookup ++ [Effect.materialize]) :=
  package_dest_no_repo ⟨[], some (LocalProvider.toDest ⟨["c"]⟩), none⟩ ⟨["c"]⟩
    specW [] (fun p hp => absurd hp (List.not_mem_nil p)) rfl rfl

/-- C9: the not-found-no-destination error is distinguishable from every
error of the retrieval path: a manager without a destination and a manager
whose destination fails return different error values from
`download_to_cache`, and within the retrieval path the fetch-failure and
persist-failure classes are themselves distinct values. -/
theorem error_classes_distinguishable {σ : Type}
    (m₁ m₂ : ExternalPackageManager σ) (spec₁ spec₂ : PackageSpec)
    (s₁ s₂ s' : σ) (d : RepoRetrievalDest σ) (e : DestError)
    (es : List Effect)
    (h₁ : m₁.cache = none) (h₂ : m₂.cache = some d)
    (hd : d.store_from m₂.repo spec₂ s₂ = (Except.error e, s', es)) :
    (m₁.download_to_cache spec₁ s₁).1 ≠ (m₂.download_to_cache spec₂ s₂).1 ∧
    (∀ a b : String,
      ExternalPackageError.RetrievalFailed (DestError.FetchFailed a) ≠
        ExternalPackageError.RetrievalFailed (DestError.PersistFailed b)) := by
  constructor
  · simp only [ExternalPackageManager.download_to_cache, h₁, h₂, hd,
      Except.mapError]
    intro hcontra
    injection hcontra with hcontra
    exact ExternalPackageError.noConfusion hcontra
  · intro a b h
    injection h with h
    exact DestError.noConfusion h

/-- Witness for C9: a destination-less manager and a manager with a failing
destination, over `Unit`, yield distinguishable errors. -/
theorem error_classes_distinguishable_witness :
    ((⟨[], none, none⟩ : ExternalPackageManager Unit).download_to_cache
        specW ()).1 ≠
      ((⟨[], some destFail, none⟩ :
          ExternalPackageManager Unit).download_to_cache specW ()).1 ∧
    (∀ a b : String,
      ExternalPackageError.RetrievalFailed (DestError.FetchFailed a) ≠
        ExternalPackageError.RetrievalFailed (DestError.PersistFailed b)) :=
  error_classes_distinguishable (⟨[], none, none⟩ : ExternalPackageManager Unit)
    ⟨[], some destFail, none⟩ specW specW () () () destFail
    (DestError.FetchFailed "timeout") [Effect.fetch] rfl rfl rfl

/-- C10: in the default construction with both roots determined, the
user-root backend precedes the cache-root backend; hence an identifier
present under both roots resolves to the user-root copy, and a locator
recognized by both backends resolves to the user-root resolution. -/
theorem new_user_root_wins (cd kd : Path) (repo : Option RepoProvider)
    (fs : FileSys) (spec : PackageSpec) (b₁ b₂ : Bundle) (uri : Url)
    (hu : Store.find (storeAt fs (cd ++ typstPackages)) spec = some b₁)
    (hc : Store.find (storeAt fs (kd ++ typstPackages)) spec = some b₂) :
    (ExternalPackageManager.new (some cd) (some kd) repo).providers =
      [(LocalProvider.new (cd ++ typstPackages)).toProvider,
        (LocalProvider.new (kd ++ typstPackages)).toProvider] ∧
    ((ExternalPackageManager.new (some cd) (some kd) repo).package spec fs).1 =
      Except.ok ⟨(cd ++ typstPackages) ++ pkgSubdir spec, b₁⟩ ∧
    ((cd ++ typstPackages) <+: uri → (kd ++ typstPackages) <+: uri →
      ((ExternalPackageManager.new (some cd) (some kd) repo).full_id uri fs).1 =
        some ⟨cd ++ typstPackages,
          (uri : List String).drop (cd ++ typstPackages).length⟩) := by
  refine ⟨rfl, ?_, ?_⟩
  · simp [ExternalPackageManager.new, ExternalPackageManager.package,
      runLookups, LocalProvider.toProvider, LocalProvider.packageAt,
      LocalProvider.new, hu]
  · intro h₁ _
    simp [ExternalPackageManager.new, ExternalPackageManager.full_id,
      runFullIds, LocalProvider.toProvider, LocalProvider.fullIdAt,
      LocalProvider.new, h₁]

/-- The concrete configuration root used by witnesses. -/
def cdW : Path := ["cfg"]

/-- The concrete cache root used by witnesses. -/
def kdW : Path := ["cache"]

/-- The package root under `cdW`. -/
def rootW : Path := cdW ++ typstPackages

/-- A concrete locator under `rootW`. -/
def uriW : Url := List.append rootW ["f.typ"]

/-- A filesystem whose single root holds two entries for `specW`. -/
def fsW : FileSys := [(rootW, [(specW, "user"), (specW, "cache")])]

/-- Witness for C10 at a concrete environment where both dirs resolve to
the same root holding the package, and a locator under that root. -/
theorem new_user_root_wins_witness :
    (ExternalPackageManager.new (some cdW) (some cdW) none).providers =
      [(LocalProvider.new (cdW ++ typstPackages)).toProvider,
        (LocalProvider.new (cdW ++ typstPackages)).toProvider] ∧
    ((ExternalPackageManager.new (some cdW) (some cdW) none).package
        specW fsW).1 =
      Except.ok ⟨(cdW ++ typstPackages) ++ pkgSubdir specW, "user"⟩ ∧
    ((cdW ++ typstPackages) <+: uriW → (cdW ++ typstPackages) <+: uriW →
      ((ExternalPackageManager.new (some cdW) (some cdW) none).full_id
          uriW fsW).1 =
        some ⟨cdW ++ typstPackages,
          (uriW : List String).drop (cdW ++ typstPackages : Path).length⟩) :=
  new_user_root_wins cdW cdW none fsW specW "user" "user" uriW
    (by simp [fsW, rootW, storeAt, Store.find])
    (by simp [fsW, rootW, storeAt, Store.find])

/-- C2: for an identifier absent from both lookup backends of the default
construction, with a repository whose fetch succeeds, the first `package`
call materializes through the cache destination and returns the fetched
package with exactly one fetch in its trace; the second call for the same
identifier, on the resulting state, returns the same package from a lookup
backend — no fetch, no materialization — because the destination's write
made the content discoverable by its lookup side (the section 4.3
contract, built into the destination model). -/
theorem package_fetch_then_cached (cd kd : Path) (r : RepoProvider)
    (fs : FileSys) (spec : PackageSpec) (b : Bundle)
    (hu : Store.find (storeAt fs (cd ++ typstPackages)) spec = none)
    (hc : Store.find (storeAt fs (kd ++ typstPackages)) spec = none)
    (hr : r.fetch spec = Except.ok b) :
    ∃ fs' : FileSys,
      (ExternalPackageManager.new (some cd) (some kd) (some r)).package spec fs =
        (Except.ok ⟨(kd ++ typstPackages) ++ pkgSubdir spec, b⟩, fs',
          [Effect.lookup 0, Effect.lookup 1, Effect.materialize, Effect.fetch,
            Effect.cacheWrite]) ∧
      ((ExternalPackageManager.new (some cd) (some kd) (some r)).package
          spec fs').1 =
        Except.ok ⟨(kd ++ typstPackages) ++ pkgSubdir spec, b⟩ ∧
      ((ExternalPackageManager.new (some cd) (some kd) (some r)).package
          spec fs').2.1 = fs' ∧
      Effect.fetch ∉
        ((ExternalPackageManager.new (some cd) (some kd) (some r)).package
          spec fs').2.2 ∧
      Effect.materialize ∉
        ((ExternalPackageManager.new (some cd) (some kd) (some r)).package
          spec fs').2.2 := by
  refine ⟨updateStore fs (kd ++ typstPackages)
      (Store.insert (storeAt fs (kd ++ typstPackages)) spec b), ?_, ?_⟩
  · simp [ExternalPackageManager.new, ExternalPackageManager.package,
      runLookups, LocalProvider.toProvider, LocalProvider.packageAt,
      LocalProvider.new, hu, hc, ExternalPackageManager.download_to_cache,
      LocalProvider.toDest, LocalProvider.store_from, hr, Except.mapError]
  · by_cases hroot : (kd ++ typstPackages : Path) = (cd ++ typstPackages : Path)
    · have hsnd : (ExternalPackageManager.new (some cd) (some kd)
          (some r)).package spec
            (updateStore fs (kd ++ typstPackages)
              (Store.insert (storeAt fs (kd ++ typstPackages)) spec b)) =
          (Except.ok ⟨(cd ++ typstPackages) ++ pkgSubdir spec, b⟩,
            updateStore fs (kd ++ typstPackages)
              (Store.insert (storeAt fs (kd ++ typstPackages)) spec b),
            [Effect.lookup 0]) := by
        simp [ExternalPackageManager.new, ExternalPackageManager.package,
          runLookups, LocalProvider.toProvider, LocalProvider.packageAt,
          LocalProvider.new, storeAt_updateStore, hroot,
          Store.find_insert_self]
      rw [hsnd, hroot]
      refine ⟨rfl, rfl, ?_, ?_⟩ <;> simp
    · have hsnd : (ExternalPackageManager.new (some cd) (some kd)
          (some r)).package spec
            (updateStore fs (kd ++ typstPackages)
              (Store.insert (storeAt fs (kd ++ typstPackages)) spec b)) =
          (Except.ok ⟨(kd ++ typstPackages) ++ pkgSubdir spec, b⟩,
            updateStore fs (kd ++ typstPackages)
              (Store.insert (storeAt fs (kd ++ typstPackages)) spec b),
            [Effect.lookup 0, Effect.lookup 1]) := by
        simp [ExternalPackageManager.new, ExternalPackageManager.package,
          runLookups, LocalProvider.toProvider, LocalProvider.packageAt,
          LocalProvider.new, storeAt_updateStore, hroot, hu,
          Store.find_insert_self]
      rw [hsnd]
      refine ⟨rfl, rfl, ?_, ?_⟩ <;> simp

/-- Witness for C2: empty filesystem, distinct concrete roots, a repository
that returns `"content"`. -/
theorem package_fetch_then_cached_witness :
    ∃ fs' : FileSys,
      (ExternalPackageManager.new (some cdW) (some kdW) (some repoOk)).package
          specW [] =
        (Except.ok ⟨(kdW ++ typstPackages) ++ pkgSubdir specW,
            "content"⟩, fs',
          [Effect.lookup 0, Effect.lookup 1, Effect.materialize, Effect.fetch,
            Effect.cacheWrite]) ∧
      ((ExternalPackageManager.new (some cdW) (some kdW) (some repoOk)).package
          specW fs').1 =
        Except.ok ⟨(kdW ++ typstPackages) ++ pkgSubdir specW,
          "content"⟩ ∧
      ((ExternalPackageManager.new (some cdW) (some kdW) (some repoOk)).package
          specW fs').2.1 = fs' ∧
      Effect.fetch ∉
        ((ExternalPackageManager.new (some cdW) (some kdW) (some repoOk)).package
          specW fs').2.2 ∧
      Effect.materialize ∉
        ((ExternalPackageManager.new (some cdW) (some kdW) (some repoOk)).package
          specW fs').2.2 :=
  package_fetch_then_cached cdW kdW repoOk [] specW "content" rfl rfl rfl

end TypstLsp
